import Mathlib

/-!
Verification of the steel landed-cost estimator (`steel_cost_app_live_api.py`).

The development embeds the application's core logic as executable Lean
definitions over ℚ (the source works with Python floats; all the claims under
study are algebraic identities and control-flow facts, so exact rational
arithmetic is the appropriate shallow embedding):

* `query_uk_tariff_api` — parsing of the UK trade-tariff API payload
  (source lines 89–102); the HTTP layer is modelled by `ApiOutcome` and the
  Python `float` builtin by an explicit `parseFloat : String → Option ℚ`
  parameter (a partial parsing function).
* `cached_query` — the `@st.cache_data` wrapper around the lookup: Streamlit
  caches the decorated function's return value per argument (any value,
  `None` included; only an uncaught exception is left uncached, and the
  function body catches everything).
* `normalize_quantity` (lines 104–107), `get_tariff_rate` (lines 109–116),
  the per-row column pipeline (lines 126–140) and the alternative-sourcing
  loop (lines 159–166).
-/

namespace SteelApp

/-- Python `str.lower()`, character by character (the app only compares ASCII
unit names and country names). -/
def pyLower (s : String) : String := String.mk (s.data.map Char.toLower)

/-- Python `str.replace("%", "")`: the pattern is the single character `%`,
so the call removes every `%` from the string. -/
def stripPercent (s : String) : String := String.mk (s.data.filter (fun c => c ≠ '%'))

/-- Python `str.strip()`: drop leading and trailing whitespace. -/
def pyStrip (s : String) : String :=
  String.mk (((s.data.dropWhile Char.isWhitespace).reverse.dropWhile Char.isWhitespace).reverse)

/-- One input row of the uploaded CSV.  `tariffRate = none` models a missing
"Tariff Rate (%)" column or a NaN cell (`pd.notna` false); `some r` models an
explicit numeric rate in the cell. -/
structure ProductRow where
  htsCode : String
  productType : String
  country : String
  quantity : ℚ
  unit : String
  unitValue : ℚ
  shippingCost : ℚ
  tariffRate : Option ℚ
deriving Repr, DecidableEq

/-- One row of `tariff_rates.csv` (columns "HTS Code", "Country of Origin",
"Tariff Rate (%)").  When the file is absent or unreadable the source builds
an empty frame (lines 84–87), modelled by the empty list. -/
structure RefEntry where
  htsCode : String
  country : String
  rate : ℚ
deriving Repr, DecidableEq

/-- One element of the API response's `included` array that the loop at line
96 inspects: its `type` field and `attributes.duty_expression.formatted`
(`none` when any of those keys is missing, matching the `.get` chains). -/
structure Measure where
  type : String
  formatted : Option String
deriving Repr, DecidableEq

/-- Outcome of the HTTP request at line 93: `error` covers any exception
raised by `requests.get` or `response.json()` (all swallowed by the bare
`except` at line 100); `response status included` is a decoded reply with its
status code and `data.get("included", [])` (empty when the key is absent). -/
inductive ApiOutcome where
  | error : ApiOutcome
  | response (status : Nat) (included : List Measure) : ApiOutcome
deriving Repr, DecidableEq

/-- Python truthiness of `measure.get("attributes", {}).get("duty_expression",
{}).get("formatted")`: a present, non-empty string. -/
def truthyFormatted : Option String → Bool
  | none => false
  | some s => !(s == "")

/-- The test at line 97: `measure.get("type") == "measure"` and the formatted
duty expression is truthy. -/
def dutyCandidate (m : Measure) : Bool :=
  m.type == "measure" && truthyFormatted m.formatted

/-- Line 98: `measure["attributes"]["duty_expression"]["formatted"]
.replace("%", "").strip()` followed by `float(...)`; `parseFloat` returning
`none` models `float` raising `ValueError`. -/
def parseDuty (parseFloat : String → Option ℚ) (m : Measure) : Option ℚ :=
  parseFloat (pyStrip (stripPercent (m.formatted.getD "")))

/-- The `for measure in data.get("included", [])` loop (lines 96–99): the
first candidate entry is parsed and returned; a `float` failure raises out of
the loop into the bare `except`, so the whole lookup yields `none` rather
than trying later entries. -/
def findDutyRate (parseFloat : String → Option ℚ) : List Measure → Option ℚ
  | [] => none
  | m :: rest =>
    if dutyCandidate m then parseDuty parseFloat m
    else findDutyRate parseFloat rest

/-- `query_uk_tariff_api` (lines 90–102): on any transport error return
`None`; on a reply, parse the duty rate only when the status code is 200. -/
def query_uk_tariff_api (parseFloat : String → Option ℚ) : ApiOutcome → Option ℚ
  | .error => none
  | .response status included =>
    if status = 200 then findDutyRate parseFloat included else none

/-- The per-process `@st.cache_data` store for `query_uk_tariff_api`:
argument ↦ cached return value, plus a count of outbound API calls made. -/
structure CacheState where
  cache : List (String × Option ℚ)
  calls : Nat
deriving Repr, DecidableEq

/-- The cached lookup.  `world hts n` is the transport outcome the `n`-th
outbound request (for code `hts`) would observe — the network may answer
differently on different attempts.  On a cache hit Streamlit returns the
stored value (whatever it is, `None` included) without re-running the body;
on a miss the body runs once and its return value is stored. -/
def cached_query (parseFloat : String → Option ℚ) (world : String → Nat → ApiOutcome)
    (s : CacheState) (hts : String) : Option ℚ × CacheState :=
  match s.cache.lookup hts with
  | some v => (v, s)
  | none =>
    let r := query_uk_tariff_api parseFloat (world hts s.calls)
    (r, ⟨(hts, r) :: s.cache, s.calls + 1⟩)

/-- `normalize_quantity` (lines 104–107). -/
def normalize_quantity (row : ProductRow) : ℚ :=
  if pyLower row.unit = "tonnes" then row.quantity * 1000 else row.quantity

/-- The boolean mask at line 113: exact code equality and case-insensitive
country equality. -/
def entryMatches (hts country : String) (e : RefEntry) : Bool :=
  e.htsCode == hts && pyLower e.country == pyLower country

/-- `get_tariff_rate` (lines 109–116), with the (cached) live lookup
abstracted as `lookup : String → Option ℚ`: live value if present, else the
first matching reference row (`match.iloc[0]`), else 0. -/
def get_tariff_rate (lookup : String → Option ℚ) (tariff_df : List RefEntry)
    (hts country : String) : ℚ :=
  match lookup hts with
  | some rate => rate
  | none =>
    match tariff_df.find? (entryMatches hts country) with
    | some e => e.rate
    | none => 0

/-- The "Tariff Rate (%)" column resolution (lines 130–136): an explicit
numeric cell is kept verbatim; an absent column or NaN cell is filled by
`get_tariff_rate`.  (Both branches of the `if "Tariff Rate (%)" not in
df.columns` reduce to this per-row rule, a missing column making every cell
absent.) -/
def resolve_row_rate (lookup : String → Option ℚ) (tariff_df : List RefEntry)
    (row : ProductRow) : ℚ :=
  match row.tariffRate with
  | some r => r
  | none => get_tariff_rate lookup tariff_df row.htsCode row.country

/-- One output row: the input columns together with the four columns added at
lines 128 and 138–140 and the resolved "Tariff Rate (%)". -/
structure OutputRow where
  htsCode : String
  productType : String
  country : String
  quantity : ℚ
  unit : String
  unitValue : ℚ
  shippingCost : ℚ
  normalizedQuantity : ℚ
  tariffRate : ℚ
  baseCost : ℚ
  tariffAmount : ℚ
  landedCost : ℚ
deriving Repr, DecidableEq

/-- The per-row computation of the upload pipeline (lines 126–140). -/
def process_row (lookup : String → Option ℚ) (tariff_df : List RefEntry)
    (row : ProductRow) : OutputRow :=
  let nq := normalize_quantity row
  let rate := resolve_row_rate lookup tariff_df row
  let base := nq * row.unitValue
  let tariff := rate / 100 * base
  { htsCode := row.htsCode
    productType := row.productType
    country := row.country
    quantity := row.quantity
    unit := row.unit
    unitValue := row.unitValue
    shippingCost := row.shippingCost
    normalizedQuantity := nq
    tariffRate := rate
    baseCost := base
    tariffAmount := tariff
    landedCost := base + tariff + row.shippingCost }

/-- The whole upload pipeline: every `df.apply(..., axis=1)` and column
assignment acts row-wise, so the frame maps over its rows in order. -/
def process_table (lookup : String → Option ℚ) (tariff_df : List RefEntry)
    (rows : List ProductRow) : List OutputRow :=
  rows.map (process_row lookup tariff_df)

/-- One candidate of the static `alternatives` mapping (lines 118–121). -/
structure Alt where
  country : String
  tariff : ℚ
deriving Repr, DecidableEq

/-- One emitted suggestion of the admin loop (lines 163–166). -/
structure AltSuggestion where
  country : String
  tariff : ℚ
  savings : ℚ
deriving Repr, DecidableEq

/-- The hardcoded `alternatives` dict (lines 118–121), as an association list
preserving the dict's insertion order. -/
def alternatives : List (String × List Alt) :=
  [("Flat-rolled coil", [⟨"Vietnam", 15⟩, ⟨"Turkey", 18⟩]),
   ("Galvanized steel", [⟨"India", 12⟩, ⟨"Brazil", 20⟩])]

/-- The `for alt in alt_sources` loop (lines 163–166): emit a suggestion for
each candidate whose tariff strictly undercuts the current rate, in list
order. -/
def suggest_alts (current_tariff base_cost : ℚ) : List Alt → List AltSuggestion
  | [] => []
  | alt :: rest =>
    if alt.tariff < current_tariff then
      ⟨alt.country, alt.tariff, (current_tariff - alt.tariff) / 100 * base_cost⟩ ::
        suggest_alts current_tariff base_cost rest
    else suggest_alts current_tariff base_cost rest

/-- `alternatives.get(row["Product Type"])` followed by the loop: the advisor
component proper (the `is_admin` flag at line 160 only gates rendering, see
`displayed_suggestions`). -/
def suggest (productType : String) (current_tariff base_cost : ℚ) : List AltSuggestion :=
  match alternatives.find? (fun p => p.1 == productType) with
  | some p => suggest_alts current_tariff base_cost p.2
  | none => []

/-- Line 160: suggestions are rendered only for admin users. -/
def displayed_suggestions (is_admin : Bool) (productType : String)
    (current_tariff base_cost : ℚ) : List AltSuggestion :=
  if is_admin then suggest productType current_tariff base_cost else []

/-- A concrete stand-in for Python's `float`, enough to exercise the model on
the string `"5"`: any other input is a parse failure. -/
def parseFloat0 : String → Option ℚ := fun s => if s = "5" then some 5 else none

/-- A concrete network history: the first request for any code errors out,
every later one receives a well-formed 5% duty reply. -/
def world0 : String → Nat → ApiOutcome :=
  fun _ n => if n = 0 then .error else .response 200 [⟨"measure", some "5%"⟩]

/-! ## Theorems -/

/-- The alternative-sourcing loop emits exactly the strict undercutters, in
candidate-list order, with savings `(current − tariff)/100 · base`. -/
theorem suggest_alts_eq (current base : ℚ) (l : List Alt) :
    suggest_alts current base l
      = (l.filter (fun a => decide (a.tariff < current))).map
          (fun a => ⟨a.country, a.tariff, (current - a.tariff) / 100 * base⟩) := by
  induction l with
  | nil => rfl
  | cons a t ih =>
    by_cases h : a.tariff < current
    · simp [suggest_alts, List.filter_cons, h, ih]
    · simp [suggest_alts, List.filter_cons, h, ih]

/-- The payload loop equals "first duty candidate, then parse": a parse
failure on that first candidate aborts the whole lookup. -/
theorem findDutyRate_eq_find (parseFloat : String → Option ℚ) (l : List Measure) :
    findDutyRate parseFloat l = (l.find? dutyCandidate).bind (parseDuty parseFloat) := by
  induction l with
  | nil => rfl
  | cons m t ih =>
    by_cases h : dutyCandidate m
    · simp [findDutyRate, h, List.find?_cons_of_pos]
    · simp [findDutyRate, h, List.find?_cons_of_neg, ih]

/-- C5: for every quantity q ≥ 0, if the unit equals "tonnes" case-insensitively
then normalization returns 1000·q, and for any other unit (including "kg" and
unrecognized units) it returns q unchanged; the function is total, so there is
no error path. -/
theorem normalize_quantity_spec (row : ProductRow) (_hq : 0 ≤ row.quantity) :
    (pyLower row.unit = "tonnes" → normalize_quantity row = 1000 * row.quantity) ∧
    (pyLower row.unit ≠ "tonnes" → normalize_quantity row = row.quantity) := by
  refine ⟨fun h => ?_, fun h => ?_⟩
  · simp [normalize_quantity, h, mul_comm]
  · simp [normalize_quantity, h]

/-- Witness for C5 at units "Tonnes" and "kg" with q = 2. -/
theorem normalize_quantity_spec_witness :
    (0 : ℚ) ≤ 2 ∧
    normalize_quantity ⟨"7208", "coil", "China", 2, "Tonnes", 500, 300, none⟩ = 1000 * 2 ∧
    normalize_quantity ⟨"7208", "coil", "China", 2, "kg", 500, 300, none⟩ = 2 :=
  ⟨by norm_num,
   (normalize_quantity_spec ⟨"7208", "coil", "China", 2, "Tonnes", 500, 300, none⟩
      (by norm_num)).1 (by decide),
   (normalize_quantity_spec ⟨"7208", "coil", "China", 2, "kg", 500, 300, none⟩
      (by norm_num)).2 (by decide)⟩

/-- C9: processing an uploaded table with zero rows produces an empty output
table (and, the function being total, raises no error). -/
theorem process_table_empty (lookup : String → Option ℚ) (tariff_df : List RefEntry) :
    process_table lookup tariff_df [] = [] := rfl

/-- C2: for every row with non-negative normalized quantity, unit value,
resolved rate and shipping cost, the computed breakdown satisfies
baseCost = q·v, tariffAmount = r/100·baseCost and
landedCost = baseCost + tariffAmount + s, exactly (the embedding computes in
ℚ, so the identities hold with no rounding at all); `process_row` is a pure
function, and rate 0 is an ordinary input (no division by the rate occurs). -/
theorem cost_breakdown_spec (lookup : String → Option ℚ) (tariff_df : List RefEntry)
    (row : ProductRow)
    (_hq : 0 ≤ normalize_quantity row) (_hv : 0 ≤ row.unitValue)
    (_hr : 0 ≤ resolve_row_rate lookup tariff_df row) (_hs : 0 ≤ row.shippingCost) :
    (process_row lookup tariff_df row).baseCost
        = normalize_quantity row * row.unitValue ∧
    (process_row lookup tariff_df row).tariffAmount
        = resolve_row_rate lookup tariff_df row / 100
            * (process_row lookup tariff_df row).baseCost ∧
    (process_row lookup tariff_df row).landedCost
        = (process_row lookup tariff_df row).baseCost
            + (process_row lookup tariff_df row).tariffAmount + row.shippingCost :=
  ⟨rfl, rfl, rfl⟩

/-- Witness for C2: the spec's end-to-end example row (2 tonnes at £500/kg,
£300 shipping, resolved rate 0 because the lookup fails and the table is
empty): landed cost = 1000000 + 0 + 300. -/
theorem cost_breakdown_spec_witness :
    (0 : ℚ) ≤ normalize_quantity
        ⟨"7208", "Flat-rolled coil", "China", 2, "tonnes", 500, 300, none⟩ ∧
    resolve_row_rate (fun _ => none) []
        ⟨"7208", "Flat-rolled coil", "China", 2, "tonnes", 500, 300, none⟩ = 0 ∧
    (process_row (fun _ => none) []
        ⟨"7208", "Flat-rolled coil", "China", 2, "tonnes", 500, 300, none⟩).landedCost
      = (process_row (fun _ => none) []
          ⟨"7208", "Flat-rolled coil", "China", 2, "tonnes", 500, 300, none⟩).baseCost
        + (process_row (fun _ => none) []
            ⟨"7208", "Flat-rolled coil", "China", 2, "tonnes", 500, 300, none⟩).tariffAmount
        + 300 :=
  ⟨by
     rw [normalize_quantity, if_pos (by decide : pyLower "tonnes" = "tonnes")]
     norm_num,
   rfl,
   (cost_breakdown_spec (fun _ => none) []
      ⟨"7208", "Flat-rolled coil", "China", 2, "tonnes", 500, 300, none⟩
      (by
        rw [normalize_quantity, if_pos (by decide : pyLower "tonnes" = "tonnes")]
        norm_num)
      (by norm_num) (le_of_eq rfl) (by norm_num)).2.2⟩

/-- C1: rate-resolution precedence.  An explicit numeric rate in the row is
used verbatim (for every lookup function and every reference table, so
neither is consulted); with the rate absent, a successful lookup wins; with
the lookup failing, the first exact-code / case-insensitive-country reference
match wins; with both failing the rate is 0. -/
theorem rate_resolution_precedence (lookup : String → Option ℚ)
    (tariff_df : List RefEntry) (row : ProductRow) :
    (∀ r : ℚ, row.tariffRate = some r → resolve_row_rate lookup tariff_df row = r) ∧
    (row.tariffRate = none → ∀ x : ℚ, lookup row.htsCode = some x →
        resolve_row_rate lookup tariff_df row = x) ∧
    (row.tariffRate = none → lookup row.htsCode = none →
        ∀ e : RefEntry, tariff_df.find? (entryMatches row.htsCode row.country) = some e →
        resolve_row_rate lookup tariff_df row = e.rate) ∧
    (row.tariffRate = none → lookup row.htsCode = none →
        tariff_df.find? (entryMatches row.htsCode row.country) = none →
        resolve_row_rate lookup tariff_df row = 0) := by
  refine ⟨fun r hr => ?_, fun h x hx => ?_, fun h hlk e he => ?_, fun h hlk he => ?_⟩
  · simp [resolve_row_rate, hr]
  · simp [resolve_row_rate, get_tariff_rate, h, hx]
  · simp [resolve_row_rate, get_tariff_rate, h, hlk, he]
  · simp [resolve_row_rate, get_tariff_rate, h, hlk, he]

/-- Witness for C1, exercising the four precedence branches on concrete
rows: explicit rate 7 kept; live rate 9 used; reference rate 25 used on a
case-insensitive country match; default 0. -/
theorem rate_resolution_precedence_witness :
    resolve_row_rate (fun _ => some 9) [⟨"7208", "china", 25⟩]
        ⟨"7208", "p", "China", 1, "kg", 1, 1, some 7⟩ = 7 ∧
    resolve_row_rate (fun _ => some 9) [⟨"7208", "china", 25⟩]
        ⟨"7208", "p", "China", 1, "kg", 1, 1, none⟩ = 9 ∧
    resolve_row_rate (fun _ => none) [⟨"7208", "china", 25⟩]
        ⟨"7208", "p", "China", 1, "kg", 1, 1, none⟩ = 25 ∧
    resolve_row_rate (fun _ => none) []
        ⟨"7208", "p", "China", 1, "kg", 1, 1, none⟩ = 0 :=
  ⟨(rate_resolution_precedence (fun _ => some 9) [⟨"7208", "china", 25⟩]
      ⟨"7208", "p", "China", 1, "kg", 1, 1, some 7⟩).1 7 rfl,
   (rate_resolution_precedence (fun _ => some 9) [⟨"7208", "china", 25⟩]
      ⟨"7208", "p", "China", 1, "kg", 1, 1, none⟩).2.1 rfl 9 rfl,
   (rate_resolution_precedence (fun _ => none) [⟨"7208", "china", 25⟩]
      ⟨"7208", "p", "China", 1, "kg", 1, 1, none⟩).2.2.1 rfl rfl
      ⟨"7208", "china", 25⟩ (by decide),
   (rate_resolution_precedence (fun _ => none) []
      ⟨"7208", "p", "China", 1, "kg", 1, 1, none⟩).2.2.2 rfl rfl rfl⟩

/-- C10: when the reference table holds several rows matching the same
(code, case-insensitive country) pair, resolution returns the rate of the
first matching row in table order; later matches are ignored
(`match.iloc[0]` at line 115). -/
theorem reference_first_match (lookup : String → Option ℚ) (df1 df2 : List RefEntry)
    (e : RefEntry) (hts country : String)
    (hlk : lookup hts = none)
    (h1 : ∀ e' ∈ df1, entryMatches hts country e' = false)
    (he : entryMatches hts country e = true) :
    get_tariff_rate lookup (df1 ++ e :: df2) hts country = e.rate := by
  have hf : (df1 ++ e :: df2).find? (entryMatches hts country) = some e := by
    induction df1 with
    | nil => simp [List.find?_cons_of_pos, he]
    | cons a t ih =>
      have ha : entryMatches hts country a = false := h1 a (List.mem_cons_self a t)
      rw [List.cons_append, List.find?_cons_of_neg _ (by simp [ha])]
      exact ih (fun e' he' => h1 e' (List.mem_cons_of_mem a he'))
  simp [get_tariff_rate, hlk, hf]

/-- Witness for C10: a table with two rows matching code "a" / country "US"
(rates 10 then 99) behind one non-matching row; resolution returns 10. -/
theorem reference_first_match_witness :
    get_tariff_rate (fun _ => none)
        [⟨"b", "us", 5⟩, ⟨"a", "US", 10⟩, ⟨"a", "us", 99⟩] "a" "US" = 10 :=
  reference_first_match (fun _ => none) [⟨"b", "us", 5⟩] [⟨"a", "us", 99⟩]
    ⟨"a", "US", 10⟩ "a" "US" rfl (by decide) (by decide)

/-- C7: the advisor emits a suggestion exactly for the mapped candidates
whose rate strictly undercuts the current rate, each with savings
(current − candidate)/100 · baseCost, in the static mapping's insertion
order (a filter of the candidate list, hence no sorting by savings); the
output is empty when the product type is unmapped or nothing undercuts. -/
theorem advisor_spec (productType : String) (current base : ℚ) :
    suggest productType current base
      = ((((alternatives.find? (fun p => p.1 == productType)).map Prod.snd).getD []).filter
          (fun a => decide (a.tariff < current))).map
          (fun a => ⟨a.country, a.tariff, (current - a.tariff) / 100 * base⟩) ∧
    (alternatives.find? (fun p => p.1 == productType) = none →
        suggest productType current base = []) ∧
    ((∀ a ∈ ((alternatives.find? (fun p => p.1 == productType)).map Prod.snd).getD [],
        ¬ a.tariff < current) → suggest productType current base = []) := by
  have hmain : suggest productType current base
      = ((((alternatives.find? (fun p => p.1 == productType)).map Prod.snd).getD []).filter
          (fun a => decide (a.tariff < current))).map
          (fun a => ⟨a.country, a.tariff, (current - a.tariff) / 100 * base⟩) := by
    cases hf : alternatives.find? (fun p => p.1 == productType) with
    | none => simp [suggest, hf]
    | some p => simp [suggest, hf, suggest_alts_eq]
  refine ⟨hmain, fun h => ?_, fun h => ?_⟩
  · simp [suggest, h]
  · rw [hmain, List.filter_eq_nil_iff.mpr ?_, List.map_nil]
    intro a ha
    simpa using h a ha

/-- Witness for C7: the spec's worked example — "Flat-rolled coil" at a 25%
current rate and £1,000,000 base cost yields Vietnam (savings 100000) then
Turkey (savings 70000); an unmapped product type and a current rate nothing
undercuts both yield no suggestions. -/
theorem advisor_spec_witness :
    suggest "Flat-rolled coil" 25 1000000
      = [⟨"Vietnam", 15, 100000⟩, ⟨"Turkey", 18, 70000⟩] ∧
    suggest "Unknown steel" 25 1000000 = [] ∧
    suggest "Galvanized steel" 10 1000000 = [] := by
  refine ⟨((advisor_spec "Flat-rolled coil" 25 1000000).1).trans ?_,
    (advisor_spec "Unknown steel" 25 1000000).2.1 (by decide),
    (advisor_spec "Galvanized steel" 10 1000000).2.2 ?_⟩
  · norm_num [alternatives, List.find?, List.filter]
  · rw [show ((((alternatives.find? (fun p => p.1 == "Galvanized steel")).map Prod.snd).getD [])
        : List Alt) = [⟨"India", 12⟩, ⟨"Brazil", 20⟩] from rfl]
    intro a ha
    rcases List.mem_cons.mp ha with rfl | ha2
    · norm_num
    · rcases List.mem_singleton.mp ha2 with rfl
      norm_num

/-- C4: for a decoded 200 reply, the lookup takes the first `included` entry
whose type is "measure" and whose formatted duty expression is non-empty,
removes every `%` and surrounding whitespace, and hands the remainder to the
number parser; a parse failure there makes the whole lookup fail (later
entries are not tried). -/
theorem lookup_parse_spec (parseFloat : String → Option ℚ) (included : List Measure) :
    query_uk_tariff_api parseFloat (.response 200 included)
        = (included.find? dutyCandidate).bind (parseDuty parseFloat) ∧
    ∀ m, included.find? dutyCandidate = some m → parseDuty parseFloat m = none →
        query_uk_tariff_api parseFloat (.response 200 included) = none := by
  have h := findDutyRate_eq_find parseFloat included
  refine ⟨by simpa [query_uk_tariff_api] using h, fun m hm hp => ?_⟩
  simp [query_uk_tariff_api, h, hm, hp]

/-- Witness for C4: with a parser that only accepts "5", a payload whose
first duty candidate is the unparseable "bad" yields no rate at all, even
though a later entry carries the parseable "5%". -/
theorem lookup_parse_spec_witness :
    query_uk_tariff_api parseFloat0
        (.response 200 [⟨"x", some "9%"⟩, ⟨"measure", some "bad"⟩, ⟨"measure", some "5%"⟩])
      = none :=
  (lookup_parse_spec parseFloat0
      [⟨"x", some "9%"⟩, ⟨"measure", some "bad"⟩, ⟨"measure", some "5%"⟩]).2
    ⟨"measure", some "bad"⟩ (by decide) (by decide)

/-- C6: no resolution error is fatal.  Every transport failure, non-200
status, empty/malformed payload or unparseable first duty entry makes the
lookup answer `none` rather than an error, and — for every behaviour of the
lookup and of the reference table, the missing-table case `tariff_df = []`
included — every row still gets a numeric resolved rate and a complete cost
breakdown. -/
theorem resolution_total_spec (parseFloat : String → Option ℚ) (s : Nat)
    (inc : List Measure) (m : Measure) (lookup : String → Option ℚ)
    (tariff_df : List RefEntry) (row : ProductRow) :
    query_uk_tariff_api parseFloat .error = none ∧
    (s ≠ 200 → query_uk_tariff_api parseFloat (.response s inc) = none) ∧
    query_uk_tariff_api parseFloat (.response 200 []) = none ∧
    (dutyCandidate m = true → parseDuty parseFloat m = none →
        query_uk_tariff_api parseFloat (.response 200 (m :: inc)) = none) ∧
    (process_row lookup tariff_df row).tariffRate = resolve_row_rate lookup tariff_df row ∧
    (process_row lookup tariff_df row).landedCost
        = (process_row lookup tariff_df row).baseCost
            + (process_row lookup tariff_df row).tariffAmount + row.shippingCost := by
  refine ⟨rfl, fun h => ?_, rfl, fun h1 h2 => ?_, rfl, rfl⟩
  · simp [query_uk_tariff_api, h]
  · simp [query_uk_tariff_api, findDutyRate, h1, h2]

/-- Witness for C6: a 404 reply and a 200 reply whose only duty entry fails
to parse both resolve to "no answer" rather than an error. -/
theorem resolution_total_spec_witness :
    query_uk_tariff_api parseFloat0 (.response 404 []) = none ∧
    query_uk_tariff_api parseFloat0 (.response 200 [⟨"measure", some "bad"⟩]) = none :=
  ⟨(resolution_total_spec parseFloat0 404 [] ⟨"measure", some "bad"⟩ (fun _ => none) []
      ⟨"a", "p", "C", 1, "kg", 1, 1, none⟩).2.1 (by decide),
   (resolution_total_spec parseFloat0 200 [] ⟨"measure", some "bad"⟩ (fun _ => none) []
      ⟨"a", "p", "C", 1, "kg", 1, 1, none⟩).2.2.2.1 (by decide) (by decide)⟩

/-- C8: the output table has exactly the input rows, in order, one-to-one;
each output row keeps every input column unchanged, except that an absent
"Tariff Rate (%)" is filled with the resolved value, and gains the
normalized-quantity, base-cost, tariff-amount and landed-cost columns. -/
theorem output_frame_spec (lookup : String → Option ℚ) (tariff_df : List RefEntry)
    (rows : List ProductRow) :
    (process_table lookup tariff_df rows).length = rows.length ∧
    ∀ (i : Nat) (row : ProductRow), rows[i]? = some row →
      ∃ out : OutputRow, (process_table lookup tariff_df rows)[i]? = some out ∧
        out.htsCode = row.htsCode ∧ out.productType = row.productType ∧
        out.country = row.country ∧ out.quantity = row.quantity ∧
        out.unit = row.unit ∧ out.unitValue = row.unitValue ∧
        out.shippingCost = row.shippingCost ∧
        (∀ r, row.tariffRate = some r → out.tariffRate = r) ∧
        (row.tariffRate = none →
            out.tariffRate = get_tariff_rate lookup tariff_df row.htsCode row.country) ∧
        out.normalizedQuantity = normalize_quantity row ∧
        out.baseCost = normalize_quantity row * row.unitValue ∧
        out.tariffAmount = out.tariffRate / 100 * out.baseCost ∧
        out.landedCost = out.baseCost + out.tariffAmount + out.shippingCost := by
  refine ⟨by simp [process_table], fun i row h => ?_⟩
  refine ⟨process_row lookup tariff_df row, ?_, rfl, rfl, rfl, rfl, rfl, rfl, rfl,
    fun r hr => ?_, fun hn => ?_, rfl, rfl, rfl, rfl⟩
  · rw [process_table, List.getElem?_map, h, Option.map_some']
  · simp [process_row, resolve_row_rate, hr]
  · simp [process_row, resolve_row_rate, hn]

/-- Witness for C8 on a one-row table carrying an explicit 4% rate: the
output row keeps every input column and the explicit rate. -/
theorem output_frame_spec_witness :
    ∃ out : OutputRow, (process_table (fun _ => none) []
        [⟨"a", "p", "C", 1, "kg", 2, 3, some 4⟩])[0]? = some out ∧
      out.htsCode = "a" ∧ out.productType = "p" ∧ out.country = "C" ∧
      out.quantity = 1 ∧ out.unit = "kg" ∧ out.unitValue = 2 ∧
      out.shippingCost = 3 ∧
      (∀ r, (some (4 : ℚ)) = some r → out.tariffRate = r) ∧
      ((some (4 : ℚ)) = none →
          out.tariffRate = get_tariff_rate (fun _ => none) [] "a" "C") ∧
      out.normalizedQuantity = normalize_quantity ⟨"a", "p", "C", 1, "kg", 2, 3, some 4⟩ ∧
      out.baseCost = normalize_quantity ⟨"a", "p", "C", 1, "kg", 2, 3, some 4⟩ * 2 ∧
      out.tariffAmount = out.tariffRate / 100 * out.baseCost ∧
      out.landedCost = out.baseCost + out.tariffAmount + out.shippingCost :=
  (output_frame_spec (fun _ => none) [] [⟨"a", "p", "C", 1, "kg", 2, 3, some 4⟩]).2
    0 ⟨"a", "p", "C", 1, "kg", 2, 3, some 4⟩ rfl

/-- C3, counterexample to "only successes are cached": under `world0` the
first request for code "x" errors out and any re-attempt would return 5%,
yet the second resolution still answers `none` with the outbound call count
stuck at 1 — `st.cache_data` caches the `None` return value, so failed
lookups are never re-attempted in-process. -/
theorem cache_retry_counterexample :
    (cached_query parseFloat0 world0
        ((cached_query parseFloat0 world0 ⟨[], 0⟩ "x").2) "x").1 = none ∧
    (cached_query parseFloat0 world0
        ((cached_query parseFloat0 world0 ⟨[], 0⟩ "x").2) "x").2.calls = 1 ∧
    query_uk_tariff_api parseFloat0 (world0 "x" 1) = some 5 :=
  ⟨rfl, rfl, rfl⟩

/-- C3 as amended: the first lookup outcome for a code — success or failure
alike — is cached, and every later resolution for that code returns the
identical cached value with the cache state (its outbound-call counter
included) unchanged, i.e. with no new external call. -/
theorem cached_lookup_stable (parseFloat : String → Option ℚ)
    (world : String → Nat → ApiOutcome) (s : CacheState) (hts : String)
    (v : Option ℚ) (s' : CacheState)
    (h : cached_query parseFloat world s hts = (v, s')) :
    cached_query parseFloat world s' hts = (v, s') := by
  unfold cached_query at h ⊢
  cases hl : s.cache.lookup hts with
  | some w =>
    rw [hl] at h
    obtain ⟨rfl, rfl⟩ := Prod.mk.injEq .. ▸ h
    simp [hl]
  | none =>
    rw [hl] at h
    simp only at h
    obtain ⟨rfl, rfl⟩ := Prod.mk.injEq .. ▸ h
    simp [List.lookup]

/-- Witness for C3's amended statement: after the failed first lookup for
"x", querying again returns the cached `none` and leaves the state — call
count included — untouched. -/
theorem cached_lookup_stable_witness :
    cached_query parseFloat0 world0 ⟨[("x", none)], 1⟩ "x"
      = (none, ⟨[("x", none)], 1⟩) :=
  cached_lookup_stable parseFloat0 world0 ⟨[], 0⟩ "x" none ⟨[("x", none)], 1⟩ rfl

end SteelApp
